import Mathlib

/-!
# Verification of the DBAPLAY state-synchronization core

Shallow embedding of `src/firebase-storage.js`: the Field Mapper
(wire ⟷ internal representation), the State Synchronizer
(`loadDataFromSupabase`, `saveDataToSupabase`), the Message Log Manager
(`addAdminMessage`, `deleteAdminMessage`) and the bodies of the two polling
loops (`listenToNewVisits`, `listenToAdminMessages`).

The remote gateway is modelled by the contents of the `app_data` table
(a list of wire rows) together with injectable transport failures; the
asynchronous poller loops are modelled by their per-tick bodies, taking the
outcome of that tick's `loadDataFromSupabase` call as an argument and
returning the updated last-seen counter together with the list of callback
invocations the tick performs, in invocation order.
-/

namespace DBAPLAY

/-- Transport-level error (`throw new Error(...)` in `supabaseRequest`). -/
abbrev SbError := String

/-- Link records are opaque to this core (spec §3). -/
abbrev LinkRec := Nat

/-- Click-event records are opaque to this core (spec §3). -/
abbrev ClickRec := Nat

/-- Visit-event records are opaque to this core (spec §3). -/
abbrev VisitRec := Nat

/-- The `daily_visits` mapping from date-key to visit count; the object is
passed through whole by the mapper, modelled as an association list. -/
abbrev DailyVisits := List (String × Nat)

/-- The `social_links` / `socialLinks` object with keys `discord` and `x`. -/
structure SocialLinks where
  discord : String
  x : String
deriving DecidableEq, Repr

/-- The `admin_credentials` value: an opaque object, never interpreted by
this core. JavaScript objects are always truthy, which matters for the
`|| null` pass-through in the mapper. -/
structure AdminCredentials where
  username : String
  password : String
deriving DecidableEq, Repr

/-- An admin message (spec §3), as constructed by `addAdminMessage`
(src lines 227-233). -/
structure Message where
  id : String
  text : String
  type : String
  timestamp : String
  active : Bool
deriving DecidableEq, Repr

/-- Internal representation of the statistics block. -/
structure Statistics where
  clicks : List ClickRec
  visits : List VisitRec
  dailyVisits : DailyVisits
deriving DecidableEq, Repr

/-- Internal (camelCase) representation of the singleton document, as
returned by `loadDataFromSupabase` (src lines 111-122): every field is
total, defaults already substituted. -/
structure AppDocument where
  links : List LinkRec
  socialLinks : SocialLinks
  adminCredentials : Option AdminCredentials
  statistics : Statistics
  adminMessages : List Message
  setupPageEnabled : Bool
deriving DecidableEq, Repr

/-- Wire (snake_case) representation of the statistics block; each sub-field
may be null/absent. -/
structure WireStats where
  clicks : Option (List ClickRec)
  visits : Option (List VisitRec)
  daily_visits : Option DailyVisits
deriving DecidableEq, Repr

/-- Wire (snake_case) representation of a row of the `app_data` table; each
field may be null/absent (`none`). -/
structure WireRow where
  id : Nat
  links : Option (List LinkRec)
  social_links : Option SocialLinks
  admin_credentials : Option AdminCredentials
  statistics : Option WireStats
  admin_messages : Option (List Message)
  setup_page_enabled : Option Bool
deriving DecidableEq, Repr

/-- The default internal document returned by `loadDataFromSupabase` when the
store is empty (src lines 98-105). -/
def defaultInternal : AppDocument :=
  { links := []
    socialLinks := { discord := "", x := "" }
    adminCredentials := none
    statistics := { clicks := [], visits := [], dailyVisits := [] }
    adminMessages := []
    setupPageEnabled := true }

/-- The default wire row POSTed to `app_data` on first load
(src lines 83-95). -/
def defaultWireRow : WireRow :=
  { id := 1
    links := some []
    social_links := some { discord := "", x := "" }
    admin_credentials := none
    statistics := some { clicks := some [], visits := some [], daily_visits := some [] }
    admin_messages := some []
    setup_page_enabled := some true }

/-- Wire → internal field mapping (src lines 111-122). JavaScript arrays and
objects are always truthy, so `v || d` on the list/object fields reads the
field when present and the default when null/absent (`Option.getD`), and
`data.admin_credentials || null` is the identity on the optional object.
`data.setup_page_enabled !== false` is the final `match`. -/
def toInternal (data : WireRow) : AppDocument :=
  { links := data.links.getD []
    socialLinks := data.social_links.getD { discord := "", x := "" }
    adminCredentials := data.admin_credentials
    statistics :=
      { clicks := (data.statistics.bind WireStats.clicks).getD []
        visits := (data.statistics.bind WireStats.visits).getD []
        dailyVisits := (data.statistics.bind WireStats.daily_visits).getD [] }
    adminMessages := data.admin_messages.getD []
    setupPageEnabled :=
      match data.setup_page_enabled with
      | some false => false
      | _ => true }

/-- Internal → wire field mapping: the `supabaseData` object computed inside
`saveDataToSupabase` (src lines 135-147). The internal fields are total, and
arrays/objects are truthy in JavaScript, so each `v || d` is the identity;
`data.setupPageEnabled !== false` is `!= false` on the boolean. -/
def toWire (data : AppDocument) : WireRow :=
  { id := 1
    links := some data.links
    social_links := some data.socialLinks
    admin_credentials := data.adminCredentials
    statistics := some
      { clicks := some data.statistics.clicks
        visits := some data.statistics.visits
        daily_visits := some data.statistics.dailyVisits }
    admin_messages := some data.adminMessages
    setup_page_enabled := some (data.setupPageEnabled != false) }

/-- `loadDataFromSupabase` (src lines 76-127) over an explicit gateway state:
`tbl` is the current contents of the `app_data` table, `readFail` /
`createFail` inject transport failures into the GET and the POST. Returns
the call's outcome together with the table contents after the call. On an
empty table the default row is created and the default internal document is
returned; otherwise the first row is mapped wire → internal. -/
def loadDataFromSupabase (readFail createFail : Option SbError)
    (tbl : List WireRow) : Except SbError AppDocument × List WireRow :=
  match readFail with
  | some e => (.error e, tbl)
  | none =>
    match tbl with
    | [] =>
      match createFail with
      | some e => (.error e, tbl)
      | none => (.ok defaultInternal, tbl ++ [defaultWireRow])
    | row :: _ => (.ok (toInternal row), tbl)

/-- The in-memory `window.DATA_CACHE` object (src lines 160-164). -/
structure DataCache where
  data : Option AppDocument
  lastLoad : Nat
  lastSuccessfulSave : Nat
deriving DecidableEq, Repr

/-- The three `localStorage` keys written by `saveDataToSupabase`
(src lines 166-171); timestamps are stringified numbers, the cached document
stands for its JSON serialization. -/
structure LocalStorage where
  lastDataSave : Option Nat
  cachedData : Option AppDocument
  cachedDataTime : Option Nat
deriving DecidableEq, Repr

/-- The Local Cache Mirror: the optional `window.DATA_CACHE` object and the
`localStorage` keys. -/
structure CacheState where
  dataCache : Option DataCache
  localStorage : LocalStorage
deriving DecidableEq, Repr

/-- Failure injection and clock for one `saveDataToSupabase` call:
`readFail` fails the existence-check GET, `writeFail` fails the PATCH/POST,
`lsFailAt` makes the i-th `localStorage.setItem` call throw, `now` is
`Date.now()`. -/
structure SaveEnv where
  readFail : Option SbError
  writeFail : Option SbError
  lsFailAt : Option Nat
  now : Nat
deriving DecidableEq, Repr

/-- Whether the j-th `localStorage.setItem` call runs and succeeds: a throw
at index i aborts the `try` block, so calls after i never execute and the
exception is swallowed by the empty `catch` (src line 171). -/
def lsWriteOk (lsFailAt : Option Nat) (j : Nat) : Bool :=
  match lsFailAt with
  | none => true
  | some i => j < i

/-- `saveDataToSupabase` (src lines 130-178) over an explicit gateway and
cache state. Maps the document to its wire row, checks existence of the
singleton row (GET with filter id = 1), PATCHes every row matching the
filter if one exists and POSTs the row otherwise, then updates the
`DATA_CACHE` object when present (plain assignments, cannot fail) and
attempts the three `localStorage` writes inside try/catch. Returns the
outcome (`return true` on success), the table after the call, and the cache
state after the call. Transport failures propagate before any cache field is
touched. -/
def saveDataToSupabase (env : SaveEnv) (tbl : List WireRow) (st : CacheState)
    (data : AppDocument) : Except SbError Bool × List WireRow × CacheState :=
  let supabaseData := toWire data
  match env.readFail with
  | some e => (.error e, tbl, st)
  | none =>
    let existing := tbl.filter (fun r => r.id == 1)
    match env.writeFail with
    | some e => (.error e, tbl, st)
    | none =>
      let tbl2 :=
        if existing.length > 0 then
          tbl.map (fun r => if r.id == 1 then supabaseData else r)
        else
          tbl ++ [supabaseData]
      let dc : Option DataCache :=
        match st.dataCache with
        | some _ => some { data := some data, lastLoad := 0, lastSuccessfulSave := env.now }
        | none => none
      let ls := st.localStorage
      let ls := if lsWriteOk env.lsFailAt 0 then { ls with lastDataSave := some env.now } else ls
      let ls := if lsWriteOk env.lsFailAt 1 then { ls with cachedData := some data } else ls
      let ls := if lsWriteOk env.lsFailAt 2 then { ls with cachedDataTime := some env.now } else ls
      (.ok true, tbl2, { dataCache := dc, localStorage := ls })

/-- The caller-supplied part of a new admin message (`message` argument of
`addAdminMessage`): `text` required, `type` and `active` optional. -/
structure MessageInput where
  text : String
  type : Option String
  active : Option Bool
deriving DecidableEq, Repr

/-- JavaScript `v || d` for an optional string: null/undefined and the empty
string are falsy, any other string is returned as is. -/
def jsOrStr (v : Option String) (d : String) : String :=
  match v with
  | some s => if s = "" then d else s
  | none => d

/-- The message object constructed by `addAdminMessage` (src lines 227-233);
`now` stands for the clock value `Date.now()`, rendered both as the id
string and (abstracting the ISO-8601 formatting) as the timestamp. -/
def mkAdminMessage (now : Nat) (message : MessageInput) : Message :=
  { id := toString now
    text := message.text
    type := jsOrStr message.type "info"
    timestamp := toString now
    active := message.active != some false }

/-- The load → mutate step of `addAdminMessage` (src lines 224-240):
`loaded` is the document the initial `loadDataFromSupabase` returned; the
new message is pushed and, when the length exceeds 50, only the last 50 are
kept (`slice(-50)`). The subsequent `saveDataToSupabase` call receives
exactly the returned document; the created message is returned alongside. -/
def addAdminMessage (loaded : AppDocument) (now : Nat) (message : MessageInput) :
    AppDocument × Message :=
  let newMessage := mkAdminMessage now message
  let msgs := loaded.adminMessages ++ [newMessage]
  let msgs2 := if msgs.length > 50 then msgs.drop (msgs.length - 50) else msgs
  ({ loaded with adminMessages := msgs2 }, newMessage)

/-- The load → mutate step of `deleteAdminMessage` (src lines 253-258):
keeps every message whose `id` differs from `messageId`; the subsequent
`saveDataToSupabase` call receives exactly the returned document, and the
function returns `true`. -/
def deleteAdminMessage (loaded : AppDocument) (messageId : String) :
    AppDocument × Bool :=
  ({ loaded with adminMessages :=
      loaded.adminMessages.filter (fun msg => msg.id != messageId) }, true)

/-- One tick of the `listenToNewVisits` poller body (src lines 184-199):
given the retained `lastVisitCount` and the outcome of this tick's
`loadDataFromSupabase` call, returns the counter after the tick and the
arguments of the callback invocations performed, in invocation order. A
load failure is only logged: no invocation, counter unchanged. On success,
when the visit list is longer than the counter the slice of new visits is
delivered one callback call per element, then the counter becomes the new
length. -/
def listenToNewVisitsTick (lastVisitCount : Nat)
    (loadResult : Except SbError AppDocument) : Nat × List VisitRec :=
  match loadResult with
  | .error _ => (lastVisitCount, [])
  | .ok data =>
    let visits := data.statistics.visits
    if visits.length > lastVisitCount then
      (visits.length, visits.drop lastVisitCount)
    else
      (lastVisitCount, [])

/-- One tick of the `listenToAdminMessages` poller body (src lines 206-218):
given the retained `lastMessageCount` and the outcome of this tick's load,
returns the counter after the tick and the list of callback invocations
(each carrying the entire current message list). A load failure is only
logged. On success, the callback fires exactly once when the length differs
from the counter, then the counter becomes the current length. -/
def listenToAdminMessagesTick (lastMessageCount : Nat)
    (loadResult : Except SbError AppDocument) : Nat × List (List Message) :=
  match loadResult with
  | .error _ => (lastMessageCount, [])
  | .ok data =>
    let messages := data.adminMessages
    if messages.length ≠ lastMessageCount then
      (messages.length, [messages])
    else
      (lastMessageCount, [])

/-- A sample message with all string fields derived from an index, used for
concrete scenarios. -/
def mkMsg (i : Nat) : Message :=
  { id := toString i, text := toString i, type := "info"
    timestamp := toString i, active := true }

/-- The default document carrying n sample messages. -/
def docWithMsgs (n : Nat) : AppDocument :=
  { defaultInternal with adminMessages := (List.range n).map mkMsg }

/-- The default document carrying n visits. -/
def docWithVisits (n : Nat) : AppDocument :=
  { defaultInternal with statistics := { clicks := [], visits := List.range n, dailyVisits := [] } }

/-- A caller input whose text is derived from an index, `type` and `active`
left to their defaults. -/
def msgInput (i : Nat) : MessageInput :=
  { text := toString i, type := none, active := none }

/-- Sequential appends: folds `addAdminMessage` over a list of clock values,
each append receiving the document produced by the previous one (the
load → save cycles being serialized). -/
def appendSeq (doc : AppDocument) (times : List Nat) : AppDocument :=
  times.foldl (fun d i => (addAdminMessage d i (msgInput i)).1) doc

/-- A wire row with every known field present and non-default. -/
def rowFull : WireRow :=
  { id := 1
    links := some [7]
    social_links := some { discord := "d", x := "x" }
    admin_credentials := some { username := "u", password := "p" }
    statistics := some
      { clicks := some [1], visits := some [2, 3]
        daily_visits := some [("2024-01-01", 4)] }
    admin_messages := some [mkMsg 9]
    setup_page_enabled := some false }

/-- A wire row with every optional field null/absent. -/
def rowEmpty : WireRow :=
  { id := 1, links := none, social_links := none, admin_credentials := none
    statistics := none, admin_messages := none, setup_page_enabled := none }

/-- C2: the Field Mapper round trip is lossless: `toInternal ∘ toWire` is the
identity on every internal document, and `toWire ∘ toInternal` preserves
every value present in the wire row for each known field (`links`,
`social_links`, `admin_credentials`, the three `statistics` sub-fields,
`admin_messages`, `setup_page_enabled`). -/
theorem mapper_round_trip :
    (∀ doc : AppDocument, toInternal (toWire doc) = doc) ∧
    (∀ x : WireRow,
      (∀ l, x.links = some l → (toWire (toInternal x)).links = some l) ∧
      (∀ s, x.social_links = some s → (toWire (toInternal x)).social_links = some s) ∧
      (∀ c, x.admin_credentials = some c →
        (toWire (toInternal x)).admin_credentials = some c) ∧
      (∀ st cl, x.statistics = some st → st.clicks = some cl →
        ((toWire (toInternal x)).statistics.bind WireStats.clicks) = some cl) ∧
      (∀ st v, x.statistics = some st → st.visits = some v →
        ((toWire (toInternal x)).statistics.bind WireStats.visits) = some v) ∧
      (∀ st d, x.statistics = some st → st.daily_visits = some d →
        ((toWire (toInternal x)).statistics.bind WireStats.daily_visits) = some d) ∧
      (∀ m, x.admin_messages = some m → (toWire (toInternal x)).admin_messages = some m) ∧
      (∀ b, x.setup_page_enabled = some b →
        (toWire (toInternal x)).setup_page_enabled = some b)) := by
  constructor
  · intro doc
    obtain ⟨l, s, a, ⟨c, v, d⟩, m, b⟩ := doc
    cases b <;> rfl
  · intro x
    refine ⟨?_, ?_, ?_, ?_, ?_, ?_, ?_, ?_⟩
    · intro l hl; simp [toWire, toInternal, hl]
    · intro s hs; simp [toWire, toInternal, hs]
    · intro c hc; simp [toWire, toInternal, hc]
    · intro st cl h1 h2; simp [toWire, toInternal, h1, h2]
    · intro st v h1 h2; simp [toWire, toInternal, h1, h2]
    · intro st d h1 h2; simp [toWire, toInternal, h1, h2]
    · intro m hm; simp [toWire, toInternal, hm]
    · intro b hb; cases b <;> simp [toWire, toInternal, hb]

/-- C2 witness: the round trip evaluated on a concrete populated document
and a concrete fully populated wire row. -/
theorem mapper_round_trip_witness :
    toInternal (toWire (docWithMsgs 2)) = docWithMsgs 2 ∧
    (toWire (toInternal rowFull)).links = some [7] ∧
    (toWire (toInternal rowFull)).admin_credentials
      = some { username := "u", password := "p" } ∧
    ((toWire (toInternal rowFull)).statistics.bind WireStats.visits) = some [2, 3] ∧
    (toWire (toInternal rowFull)).setup_page_enabled = some false :=
  ⟨mapper_round_trip.1 (docWithMsgs 2),
   (mapper_round_trip.2 rowFull).1 [7] rfl,
   (mapper_round_trip.2 rowFull).2.2.1 { username := "u", password := "p" } rfl,
   (mapper_round_trip.2 rowFull).2.2.2.2.1 _ [2, 3] rfl rfl,
   (mapper_round_trip.2 rowFull).2.2.2.2.2.2.2 false rfl⟩

/-- C3: a successful visit-poller tick whose visit list is strictly longer
than the retained last-seen count invokes the callback once per element
past the count, in append order with that element as argument (the dropped
slice), and sets the count to the new length; the number of invocations is
exactly the length excess. -/
theorem visit_poller_detects_growth (lastVisitCount : Nat) (data : AppDocument)
    (h : data.statistics.visits.length > lastVisitCount) :
    listenToNewVisitsTick lastVisitCount (.ok data)
      = (data.statistics.visits.length, data.statistics.visits.drop lastVisitCount)
    ∧ (listenToNewVisitsTick lastVisitCount (.ok data)).2.length
      = data.statistics.visits.length - lastVisitCount := by
  constructor
  · simp [listenToNewVisitsTick, h]
  · simp [listenToNewVisitsTick, h]

/-- C3 witness: with last-seen count 3 and a load returning 5 visits, the
callback fires exactly twice, once per new visit, in append order. -/
theorem visit_poller_detects_growth_witness :
    (listenToNewVisitsTick 3 (.ok (docWithVisits 5))
       = ((docWithVisits 5).statistics.visits.length,
          (docWithVisits 5).statistics.visits.drop 3))
    ∧ (listenToNewVisitsTick 3 (.ok (docWithVisits 5))).2.length
       = (docWithVisits 5).statistics.visits.length - 3 :=
  visit_poller_detects_growth 3 (docWithVisits 5) (by decide)

/-- C5: against an empty store, load issues exactly one create, carrying
the default wire row, and returns the default internal document; a second
load then reads the existing row, issues no create (the table is
unchanged), and returns the same default document, which coincides with the
wire → internal image of the created row. -/
theorem load_singleton_creation :
    loadDataFromSupabase none none [] = (.ok defaultInternal, [defaultWireRow]) ∧
    loadDataFromSupabase none none [defaultWireRow]
      = (.ok defaultInternal, [defaultWireRow]) ∧
    toInternal defaultWireRow = defaultInternal :=
  ⟨rfl, rfl, rfl⟩

/-- C6: load default-fills every field: when the row exists, load returns
its wire → internal image; a missing `links` yields the empty sequence, a
missing `social_links` yields the empty discord/x mapping, a missing
`statistics` (or missing sub-field) yields empty sequences/mapping, a
missing `admin_messages` yields the empty sequence, and `setupPageEnabled`
is true exactly when the stored value is not explicitly false. -/
theorem load_default_fill (row : WireRow) (rest : List WireRow) :
    (loadDataFromSupabase none none (row :: rest)).1 = .ok (toInternal row) ∧
    (row.links = none → (toInternal row).links = []) ∧
    (row.social_links = none →
      (toInternal row).socialLinks = { discord := "", x := "" }) ∧
    (row.statistics = none →
      (toInternal row).statistics = { clicks := [], visits := [], dailyVisits := [] }) ∧
    (∀ st, row.statistics = some st → st.clicks = none →
      (toInternal row).statistics.clicks = []) ∧
    (∀ st, row.statistics = some st → st.visits = none →
      (toInternal row).statistics.visits = []) ∧
    (∀ st, row.statistics = some st → st.daily_visits = none →
      (toInternal row).statistics.dailyVisits = []) ∧
    (row.admin_messages = none → (toInternal row).adminMessages = []) ∧
    ((toInternal row).setupPageEnabled = true ↔ row.setup_page_enabled ≠ some false) := by
  refine ⟨rfl, ?_, ?_, ?_, ?_, ?_, ?_, ?_, ?_⟩
  · intro h; simp [toInternal, h]
  · intro h; simp [toInternal, h]
  · intro h; simp [toInternal, h]
  · intro st h1 h2; simp [toInternal, h1, h2]
  · intro st h1 h2; simp [toInternal, h1, h2]
  · intro st h1 h2; simp [toInternal, h1, h2]
  · intro h; simp [toInternal, h]
  · cases hsp : row.setup_page_enabled with
    | none => simp [toInternal, hsp]
    | some b => cases b <;> simp [toInternal, hsp]

/-- C6 witness: loading the all-absent wire row yields the fully defaulted
document. -/
theorem load_default_fill_witness :
    (loadDataFromSupabase none none [rowEmpty]).1 = .ok (toInternal rowEmpty) ∧
    (toInternal rowEmpty).links = [] ∧
    (toInternal rowEmpty).socialLinks = { discord := "", x := "" } ∧
    (toInternal rowEmpty).statistics = { clicks := [], visits := [], dailyVisits := [] } ∧
    (toInternal rowEmpty).adminMessages = [] ∧
    (toInternal rowEmpty).setupPageEnabled = true :=
  ⟨(load_default_fill rowEmpty []).1,
   (load_default_fill rowEmpty []).2.1 rfl,
   (load_default_fill rowEmpty []).2.2.1 rfl,
   (load_default_fill rowEmpty []).2.2.2.1 rfl,
   (load_default_fill rowEmpty []).2.2.2.2.2.2.2.1 rfl,
   ((load_default_fill rowEmpty []).2.2.2.2.2.2.2.2).mpr (by decide)⟩

/-- A save environment with no injected failures, clock 7. -/
def envOk : SaveEnv :=
  { readFail := none, writeFail := none, lsFailAt := none, now := 7 }

/-- A save environment whose existence-check GET fails. -/
def envReadFail : SaveEnv :=
  { readFail := some "down", writeFail := none, lsFailAt := none, now := 7 }

/-- A save environment whose PATCH/POST write fails. -/
def envWriteFail : SaveEnv :=
  { readFail := none, writeFail := some "down", lsFailAt := none, now := 7 }

/-- A save environment whose first `localStorage.setItem` call throws. -/
def envLsFail : SaveEnv :=
  { readFail := none, writeFail := none, lsFailAt := some 0, now := 7 }

/-- The empty cache state: no `DATA_CACHE` object, empty `localStorage`. -/
def cacheSt0 : CacheState :=
  { dataCache := none
    localStorage := { lastDataSave := none, cachedData := none, cachedDataTime := none } }

/-- The message list produced by `addAdminMessage`, written without the
intermediate let bindings. -/
theorem addAdminMessage_adminMessages (loaded : AppDocument) (now : Nat)
    (message : MessageInput) :
    (addAdminMessage loaded now message).1.adminMessages =
      if (loaded.adminMessages ++ [mkAdminMessage now message]).length > 50 then
        (loaded.adminMessages ++ [mkAdminMessage now message]).drop
          ((loaded.adminMessages ++ [mkAdminMessage now message]).length - 50)
      else loaded.adminMessages ++ [mkAdminMessage now message] := rfl

/-- C1 counterexample: save does not enforce the 50-message bound: passing
a document holding 51 messages to `saveDataToSupabase` writes a row
carrying all 51 messages into the store, so it is not the case that for
every document passed to save the written row satisfies the bound. -/
theorem save_row_exceeds_message_bound :
    ((saveDataToSupabase envOk [] cacheSt0 (docWithMsgs 51)).2.1.map
      (fun r => (r.admin_messages.getD []).length)) = [51] := by decide

set_option maxRecDepth 8192 in
/-- C1 (amended): the 50-message bound with FIFO eviction is enforced by
append, not by save: after any `addAdminMessage` the document holds at most
50 messages and the kept messages are a suffix of the old list extended by
the new message (oldest dropped first); appending 55 messages sequentially
from the default document leaves exactly the 50 most recently appended
messages in their original relative order; and save writes the
`adminMessages` list through to the wire row unchanged, so the rows written
by the append path satisfy the bound while save itself does not truncate. -/
theorem append_bounds_message_log :
    (∀ loaded now message,
      ((addAdminMessage loaded now message).1.adminMessages).length ≤ 50) ∧
    (∀ loaded now message,
      List.IsSuffix ((addAdminMessage loaded now message).1.adminMessages)
        (loaded.adminMessages ++ [mkAdminMessage now message])) ∧
    (appendSeq defaultInternal (List.range 55)).adminMessages
      = ((List.range 55).drop 5).map (fun i => mkAdminMessage i (msgInput i)) ∧
    (∀ data, (toWire data).admin_messages = some data.adminMessages) := by
  refine ⟨?_, ?_, ?_, ?_⟩
  · intro loaded now message
    rw [addAdminMessage_adminMessages]
    split
    · rw [List.length_drop]
      omega
    · rename_i h
      omega
  · intro loaded now message
    rw [addAdminMessage_adminMessages]
    split
    · exact List.drop_suffix _ _
    · exact List.suffix_refl _
  · decide
  · intro data
    rfl

/-- C4: save's error contract: a transport failure during the existence
check or during the write propagates as the call's outcome and leaves the
remote table and the entire Local Cache Mirror untouched; when both
transport steps succeed, save returns true regardless of any failure while
writing the local cache (the `localStorage` exception is swallowed). -/
theorem save_error_contract :
    (∀ env tbl st data e, env.readFail = some e →
      saveDataToSupabase env tbl st data = (.error e, tbl, st)) ∧
    (∀ env tbl st data e, env.readFail = none → env.writeFail = some e →
      saveDataToSupabase env tbl st data = (.error e, tbl, st)) ∧
    (∀ env tbl st data, env.readFail = none → env.writeFail = none →
      (saveDataToSupabase env tbl st data).1 = .ok true) := by
  refine ⟨?_, ?_, ?_⟩
  · intro env tbl st data e h
    simp [saveDataToSupabase, h]
  · intro env tbl st data e h1 h2
    simp [saveDataToSupabase, h1, h2]
  · intro env tbl st data h1 h2
    simp [saveDataToSupabase, h1, h2]

/-- C4 witness: at concrete environments: a failed existence check
propagates with the cache untouched, a failed write likewise, and a save
whose `localStorage` write throws still returns true. -/
theorem save_error_contract_witness :
    saveDataToSupabase envReadFail [] cacheSt0 defaultInternal
      = (.error "down", [], cacheSt0) ∧
    saveDataToSupabase envWriteFail [] cacheSt0 defaultInternal
      = (.error "down", [], cacheSt0) ∧
    (saveDataToSupabase envLsFail [] cacheSt0 defaultInternal).1 = .ok true :=
  ⟨save_error_contract.1 envReadFail [] cacheSt0 defaultInternal "down" rfl,
   save_error_contract.2.1 envWriteFail [] cacheSt0 defaultInternal "down" rfl rfl,
   save_error_contract.2.2 envLsFail [] cacheSt0 defaultInternal rfl rfl⟩

/-- C7: a successful message-poller tick fires the callback exactly once,
with the entire current message list as argument, when the list's length
differs (grew or shrank) from the retained count, and then sets the count
to the current length; when the length is equal, no callback fires and the
count is unchanged. -/
theorem message_poller_detects_change (lastMessageCount : Nat) (data : AppDocument) :
    (data.adminMessages.length ≠ lastMessageCount →
      listenToAdminMessagesTick lastMessageCount (.ok data)
        = (data.adminMessages.length, [data.adminMessages])) ∧
    (data.adminMessages.length = lastMessageCount →
      listenToAdminMessagesTick lastMessageCount (.ok data) = (lastMessageCount, [])) := by
  constructor
  · intro h
    simp [listenToAdminMessagesTick, h]
  · intro h
    simp [listenToAdminMessagesTick, h]

/-- C7 witness: with last-seen count 2, a load returning 1 message fires
the callback once with the whole 1-element list; a load returning 2
messages does not fire it. -/
theorem message_poller_detects_change_witness :
    listenToAdminMessagesTick 2 (.ok (docWithMsgs 1))
      = ((docWithMsgs 1).adminMessages.length, [(docWithMsgs 1).adminMessages]) ∧
    listenToAdminMessagesTick 2 (.ok (docWithMsgs 2)) = (2, []) :=
  ⟨(message_poller_detects_change 2 (docWithMsgs 1)).1 (by decide),
   (message_poller_detects_change 2 (docWithMsgs 2)).2 (by decide)⟩

/-- C8: poller fault tolerance: a tick whose load fails performs no
callback invocation and leaves the last-seen counter unchanged, for both
pollers; consequently a failed tick followed by any tick behaves exactly
as that tick alone would have, so changes accumulated across an outage are
detected by the next successful tick. -/
theorem poller_skips_failed_tick (lastVisitCount lastMessageCount : Nat)
    (e : SbError) (r : Except SbError AppDocument) :
    listenToNewVisitsTick lastVisitCount (.error e) = (lastVisitCount, []) ∧
    listenToAdminMessagesTick lastMessageCount (.error e) = (lastMessageCount, []) ∧
    listenToNewVisitsTick (listenToNewVisitsTick lastVisitCount (.error e)).1 r
      = listenToNewVisitsTick lastVisitCount r ∧
    listenToAdminMessagesTick (listenToAdminMessagesTick lastMessageCount (.error e)).1 r
      = listenToAdminMessagesTick lastMessageCount r :=
  ⟨rfl, rfl, rfl, rfl⟩

/-- C9: delete idempotence: `deleteAdminMessage` always returns true, the
document it hands to save carries the loaded message list filtered of
every message with the given id, deleting an absent id leaves the whole
document unchanged, no message with the given id survives, and the
surviving messages are a sublist of the original list (order preserved). -/
theorem delete_message_idempotent (loaded : AppDocument) (messageId : String) :
    (deleteAdminMessage loaded messageId).2 = true ∧
    (deleteAdminMessage loaded messageId).1.adminMessages
      = loaded.adminMessages.filter (fun msg => msg.id != messageId) ∧
    ((∀ msg ∈ loaded.adminMessages, msg.id ≠ messageId) →
      (deleteAdminMessage loaded messageId).1 = loaded) ∧
    (∀ msg ∈ (deleteAdminMessage loaded messageId).1.adminMessages, msg.id ≠ messageId) ∧
    List.Sublist (deleteAdminMessage loaded messageId).1.adminMessages
      loaded.adminMessages := by
  refine ⟨rfl, rfl, ?_, ?_, ?_⟩
  · intro h
    have hf : loaded.adminMessages.filter (fun msg => msg.id != messageId)
        = loaded.adminMessages := by
      rw [List.filter_eq_self]
      intro a ha
      simpa using h a ha
    show ({ loaded with adminMessages :=
      loaded.adminMessages.filter (fun msg => msg.id != messageId) } : AppDocument) = loaded
    rw [hf]
  · intro msg hmsg
    have hmem : msg ∈ loaded.adminMessages.filter (fun m => m.id != messageId) := hmsg
    simpa using List.of_mem_filter hmem
  · exact List.filter_sublist _

/-- C9 witness: on a two-message log, deleting an absent id is a no-op
that still returns true, and deleting the present id keeps exactly the
non-matching messages. -/
theorem delete_message_idempotent_witness :
    (deleteAdminMessage (docWithMsgs 2) "zzz").2 = true ∧
    (deleteAdminMessage (docWithMsgs 2) "zzz").1 = docWithMsgs 2 ∧
    (deleteAdminMessage (docWithMsgs 2) "0").1.adminMessages
      = (docWithMsgs 2).adminMessages.filter (fun msg => msg.id != "0") :=
  ⟨(delete_message_idempotent (docWithMsgs 2) "zzz").1,
   (delete_message_idempotent (docWithMsgs 2) "zzz").2.2.1 (by decide),
   (delete_message_idempotent (docWithMsgs 2) "0").2.1⟩

/-- C10: the visit poller's last-seen counter never decreases across a
tick, and a successful tick whose visit list is no longer than the counter
performs no callback invocation and leaves the counter unchanged. -/
theorem visit_counter_monotone :
    (∀ lastVisitCount r, lastVisitCount ≤ (listenToNewVisitsTick lastVisitCount r).1) ∧
    (∀ lastVisitCount data, data.statistics.visits.length ≤ lastVisitCount →
      listenToNewVisitsTick lastVisitCount (.ok data) = (lastVisitCount, [])) := by
  constructor
  · intro c r
    cases r with
    | error e => simp [listenToNewVisitsTick]
    | ok data =>
      simp only [listenToNewVisitsTick]
      split
      · rename_i h
        exact Nat.le_of_lt h
      · exact Nat.le_refl c
  · intro c data h
    have hc : ¬ data.statistics.visits.length > c := by omega
    simp [listenToNewVisitsTick, hc]

/-- C10 witness: with last-seen count 5, a tick seeing 3 visits makes no
invocation and keeps the counter at 5, and a tick seeing 5 visits again
(growth back to the previous length) still makes no invocation. -/
theorem visit_counter_monotone_witness :
    listenToNewVisitsTick 5 (.ok (docWithVisits 3)) = (5, []) ∧
    listenToNewVisitsTick 5 (.ok (docWithVisits 5)) = (5, []) :=
  ⟨visit_counter_monotone.2 5 (docWithVisits 3) (by decide),
   visit_counter_monotone.2 5 (docWithVisits 5) (by decide)⟩

end DBAPLAY
